import Mathlib

/-!
Verification of the Enzyme-Engine annotation/scoring pipeline.

Shallow embedding of the scoring core of the repository
(`backend/modules/annotation.py`, `expression_validate.py`,
`blast_filter.py`, `matrix_builder.py`, `config.py`) over exact
rational arithmetic (Python float arithmetic is modelled by `ℚ`;
the decimal literals in the source are exact in `ℚ`).

Text matching (`re` with `\b` word boundaries and `re.IGNORECASE`,
substring membership `in`, `.lower()` / `.upper()`) is modelled over
`List Char` with ASCII character classes, which is what the regular
expressions in the source rely on for their corpora.
-/

/-! ### Character primitives (ASCII model of `re` classes and `str` case ops) -/

/-- Case-folding on ASCII codepoints: uppercase letters A–Z (65–90) map to
their lowercase forms (+32); everything else is fixed.  Two characters are
equal under `re.IGNORECASE` iff their `foldChar` values are equal. -/
def foldChar (c : Char) : Nat :=
  if 65 ≤ c.toNat ∧ c.toNat ≤ 90 then c.toNat + 32 else c.toNat

/-- Model of the regex class `\d`. -/
def isDigitA (c : Char) : Bool :=
  decide (48 ≤ c.toNat ∧ c.toNat ≤ 57)

/-- Model of the regex class `\w` (ASCII): letters, digits, underscore. -/
def isWordA (c : Char) : Bool :=
  decide ((65 ≤ c.toNat ∧ c.toNat ≤ 90) ∨ (97 ≤ c.toNat ∧ c.toNat ≤ 122) ∨
    (48 ≤ c.toNat ∧ c.toNat ≤ 57) ∨ c.toNat = 95)

/-- Case-insensitive character comparison (`re.IGNORECASE`). -/
def ciEqB (c k : Char) : Bool := foldChar c == foldChar k

/-- Model of `str.lower()` on one ASCII character. -/
def lowerChar (c : Char) : Char :=
  if 65 ≤ c.toNat ∧ c.toNat ≤ 90 then Char.ofNat (c.toNat + 32) else c

/-- Model of `str.upper()` on one ASCII character. -/
def upperChar (c : Char) : Char :=
  if 97 ≤ c.toNat ∧ c.toNat ≤ 122 then Char.ofNat (c.toNat - 32) else c

/-- Model of `str.lower()` over a whole text. -/
def lowerL (s : List Char) : List Char := s.map lowerChar

/-- Python substring membership `needle in hay` (case-sensitive). -/
def containsSub (needle hay : List Char) : Bool :=
  needle.isPrefixOf hay ||
    match hay with
    | [] => false
    | _ :: t => containsSub needle t

/-- A regex `\b` before a token whose first character is a word character:
the position is the start of the text or the previous character is not a
word character. -/
def boundaryBefore (prev : Option Char) : Bool :=
  match prev with
  | none => true
  | some p => !isWordA p

/-- A regex `\b` after a token whose last character is a word character:
end of text, or the next character is not a word character. -/
def afterOk (rest : List Char) : Bool :=
  match rest with
  | [] => true
  | c :: _ => !isWordA c

/-! ### Word-boundary keyword matching

`annotation.py` compiles, for every configured keyword,
`re.compile(r'\b' + re.escape(keyword) + r'\b', re.IGNORECASE)` and calls
`.search(search_text)`.  Every configured keyword starts and ends with a
letter, so both `\b` require a non-word neighbour (or the text edge). -/

/-- Does the keyword match case-insensitively at the head of `s`? -/
def ciStarts : List Char → List Char → Bool
  | [], _ => true
  | _ :: _, [] => false
  | k :: ks, c :: cs => ciEqB c k && ciStarts ks cs

/-- Full-pattern match of `\b kw \b` at the current position (`prev` is the
character just before the position, `none` at the start of the text). -/
def kwAt (kw : List Char) (prev : Option Char) (s : List Char) : Bool :=
  boundaryBefore prev && ciStarts kw s && afterOk (s.drop kw.length)

/-- Model of `pattern.search(text) is not None` for `\b kw \b` with
`re.IGNORECASE`: some position of the text matches. -/
def kwSearch (kw : List Char) (prev : Option Char) (s : List Char) : Bool :=
  kwAt kw prev s ||
    match s with
    | [] => false
    | c :: cs => kwSearch kw (some c) cs

/-- `pattern.search(search_text)` as used on a keyword string. -/
def kwHit (kw : String) (s : List Char) : Bool := kwSearch kw.data none s

/-! ### The GH/AA/CE/PL family pattern

`annotation.py`: `re.compile(r'\b(GH\d+|AA\d+|CE\d+|PL\d+)\b', re.IGNORECASE)`
used with `.findall(search_text)`.  A match is a two-letter prefix from
{GH, AA, CE, PL} (case-insensitive) followed by a maximal non-empty digit
run, with word boundaries on both sides.  No position strictly inside a
match can start another match (its previous character is a word character),
so `findall`'s non-overlapping left-to-right scan is equivalent to
collecting the matches at every position. -/

/-- Case-insensitive test for the two-letter prefix alternation
(codepoints: g=103 h=104 a=97 c=99 e=101 p=112 l=108 after folding). -/
def prefOk (a b : Char) : Bool :=
  (foldChar a == 103 && foldChar b == 104) ||
  (foldChar a == 97 && foldChar b == 97) ||
  (foldChar a == 99 && foldChar b == 101) ||
  (foldChar a == 112 && foldChar b == 108)

/-- Match of the family pattern at the current position, returning the
matched characters. -/
def ghMatchAt (prev : Option Char) (s : List Char) : Option (List Char) :=
  match s with
  | a :: b :: rest =>
    if boundaryBefore prev && prefOk a b then
      let ds := rest.takeWhile isDigitA
      if !ds.isEmpty && afterOk (rest.dropWhile isDigitA) then
        some (a :: b :: ds)
      else none
    else none
  | _ => none

/-- All family-pattern matches of the text, left to right
(model of `gh_pattern.findall(search_text)`). -/
def ghScan (prev : Option Char) (s : List Char) : List (List Char) :=
  match s with
  | [] => []
  | c :: cs =>
    (match ghMatchAt prev s with
     | some m => [m]
     | none => []) ++ ghScan (some c) cs

/-- `list(set([gh.upper() for gh in gh_matches]))`: uppercase-normalise and
deduplicate.  Python's `set` iteration order is unspecified; it is modelled
as first-occurrence order (every claim about this value only uses it as a
set). -/
def ghFamiliesOf (s : List Char) : List String :=
  (((ghScan none s).map (fun m => String.mk (m.map upperChar)))).eraseDups

/-! ### The EC-number pattern

`annotation.py`: `re.compile(r'\b(\d+\.\d+\.\d+\.\d+)\b')` with `.findall`.
A match is four maximal non-empty digit runs separated by dots, with word
boundaries on both sides.  EC matches can overlap, so the non-overlapping
`findall` scan is modelled with an explicit skip; the scan consumes at
least one character per step, so `s.length + 1` fuel always suffices. -/

/-- One dotted group: a maximal digit run followed by a literal dot;
returns the consumed run and the rest after the dot. -/
def ecGroupDot (s : List Char) : Option (List Char × List Char) :=
  let ds := s.takeWhile isDigitA
  match ds, s.dropWhile isDigitA with
  | _ :: _, '.' :: rest => some (ds, rest)
  | _, _ => none

/-- Match of the EC pattern at the current position; returns the matched
characters and the rest of the text after the match. -/
def ecMatchAt (prev : Option Char) (s : List Char) : Option (List Char × List Char) :=
  if boundaryBefore prev then
    match ecGroupDot s with
    | some (d1, r1) =>
      match ecGroupDot r1 with
      | some (d2, r2) =>
        match ecGroupDot r2 with
        | some (d3, r3) =>
          let d4 := r3.takeWhile isDigitA
          let rest := r3.dropWhile isDigitA
          if !d4.isEmpty && afterOk rest then
            some (d1 ++ '.' :: d2 ++ '.' :: d3 ++ '.' :: d4, rest)
          else none
        | none => none
      | none => none
    | none => none
  else none

/-- Fuel-indexed non-overlapping scan (`findall` for the EC pattern). -/
def ecScanF : Nat → Option Char → List Char → List (List Char)
  | 0, _, _ => []
  | _ + 1, _, [] => []
  | fuel + 1, prev, c :: cs =>
    match ecMatchAt prev (c :: cs) with
    | some (m, rest) => m :: ecScanF fuel (some '0') rest
    | none => ecScanF fuel (some c) cs

/-- `ec_pattern.findall(search_text)` (after a match the previous character
is a digit, represented by `'0'`: only its word-character status is ever
inspected). -/
def ecFindAll (s : List Char) : List String :=
  (ecScanF (s.length + 1) none s).map String.mk

/-! ### Configuration (`backend/config.py`) -/

/-- `ENZYME_KEYWORDS` (only the `keywords` lists take part in the claims;
the per-type `ec_numbers`/`gh_families` lists are never read by the
classifier). -/
def ENZYME_KEYWORDS : List (String × List String) :=
  [("cellulase", ["cellulase", "endoglucanase", "cellobiohydrolase"]),
   ("laccase", ["laccase", "phenol oxidase", "benzenediol oxidase"]),
   ("peroxidase", ["peroxidase", "lignin peroxidase", "manganese peroxidase"]),
   ("oxidase", ["oxidase", "glucose oxidase", "aryl-alcohol oxidase"]),
   ("xylanase", ["xylanase", "endo-1,4-beta-xylanase"]),
   ("beta-glucosidase", ["beta-glucosidase", "cellobiase"]),
   ("mannanase", ["mannanase", "mannan endo-1,4-beta-mannosidase"])]

/-- `GUT_TISSUES`. -/
def GUT_TISSUES : List String :=
  ["gut", "midgut", "foregut", "hindgut", "digestive", "alimentary", "intestine"]

/-- `DEVELOPMENTAL_STAGES`. -/
def DEVELOPMENTAL_STAGES : List String :=
  ["larva", "larval", "adult", "pupa", "pupal"]

/-- `CONFIDENCE_WEIGHTS`. -/
structure ConfidenceWeights where
  blast_identity : ℚ
  blast_coverage : ℚ
  ec_match : ℚ
  gh_family_match : ℚ
  keyword_match : ℚ
  gut_tissue : ℚ

def CONFIDENCE_WEIGHTS : ConfidenceWeights :=
  { blast_identity := 0.3
    blast_coverage := 0.2
    ec_match := 0.15
    gh_family_match := 0.15
    keyword_match := 0.1
    gut_tissue := 0.1 }

/-- `BLAST_EVALUE_THRESHOLD = 1e-20`. -/
def BLAST_EVALUE_THRESHOLD : ℚ := 1 / 10 ^ 20

/-! ### The data model

A candidate record is a Python dict; `dict.get(key, default)` on a missing
key yields the default.  String-valued keys whose only observed default is
`""` are modelled as `String` fields defaulting to `""`.  Keys written by
later pipeline stages, which can be *present with value `None`*, are
modelled as `Option (Option _)`: the outer layer is key presence, the
inner layer is `None` vs. a value.  `"confidence" in seq` is modelled by
an `Option ℚ` field. -/

structure BlastHit where
  identity : ℚ := 0
  coverage : ℚ := 0
  evalue : ℚ := 0
  bitscore : ℚ := 0
deriving DecidableEq

structure Classification where
  enzyme_types : List String
  enzyme_scores : List (String × ℚ)
  gh_families : List String
  ec_numbers : List String
  confidence : ℚ
  is_gut_expressed : Bool
  keywords_found : List String
deriving DecidableEq

structure SequenceData where
  accession : String := ""
  description : String := ""
  protein_name : String := ""
  gene_name : String := ""
  keywords : List String := []
  /-- `str(sequence_data.get("features", []))`: the feature list enters the
  search corpus only through its `str()` rendering, carried here as text
  (`"[]"` for the default empty list). -/
  features_text : String := "[]"
  organism : String := ""
  tissue : String := ""
  stage : String := ""
  /-- `sequence_data.get("ec_number")` with Python truthiness: `""` models
  both an absent key and an empty value. -/
  ec_number : String := ""
  sequence : String := ""
  length : Nat := 0
  confidence : Option ℚ := none
  annot : Option Classification := none
  enzyme_type : Option String := none
  gh_family : Option (Option String) := none
  ec_number_annotated : Option (Option String) := none
  is_gut_expressed : Option Bool := none
  tissue_type : Option (Option String) := none
  dev_stage_validated : Option (Option String) := none
  expression_score : Option ℚ := none
  blast_hits : List BlastHit := []
  blast_score : Option ℚ := none
deriving DecidableEq

/-- Python `str()` of a list of strings, e.g. `['a', 'b']` (used by
`expression_validate.py` when it builds its search corpus). -/
def pyStrList (l : List String) : String :=
  "[" ++ String.intercalate ", " (l.map (fun k => "\x27" ++ k ++ "\x27")) ++ "]"

/-! ### `EnzymeAnnotator` (`backend/modules/annotation.py`) -/

namespace EnzymeAnnotator

/-- `search_text = " ".join([description, protein_name, gene_name,
" ".join(keywords), str(features)])`. -/
def searchText (sd : SequenceData) : List Char :=
  (String.intercalate " "
    [sd.description, sd.protein_name, sd.gene_name,
     String.intercalate " " sd.keywords, sd.features_text]).data

/-- Per-type keyword matching: for each enzyme type, the number of its
compiled patterns that hit the corpus; a type is kept only when at least
one keyword matched, with match score `matches / len(patterns)`. -/
def enzymeMatches (corpus : List Char) : List (String × ℚ) :=
  ENZYME_KEYWORDS.filterMap (fun tk =>
    let m := tk.2.countP (fun kw => kwHit kw corpus)
    if m > 0 then some (tk.1, (m : ℚ) / tk.2.length) else none)

/-- The gut-tissue check of `classify_enzyme`: some configured gut term is
a substring of `tissue.lower()` or of `search_text.lower()`. -/
def gutCheck (sd : SequenceData) (corpus : List Char) : Bool :=
  GUT_TISSUES.any (fun g =>
    containsSub g.data (lowerL sd.tissue.data) || containsSub g.data (lowerL corpus))

/-- `keywords_found`: all distinct configured keywords (across every
enzyme type) that appear in the corpus as case-insensitive whole words.
The source iterates `set(all_keywords)`, whose order is unspecified; it is
modelled in configuration order (downstream only the length and the
set of entries are consumed). -/
def keywordsFound (corpus : List Char) : List String :=
  ((ENZYME_KEYWORDS.map Prod.snd).flatten).eraseDups.filter (fun kw => kwHit kw corpus)

/-- `ec_numbers`: the explicit `ec_number` field when truthy, plus every
EC-pattern match of the corpus, deduplicated (`list(set(...))`, modelled
in first-occurrence order; only the set matters downstream). -/
def ecNumbers (sd : SequenceData) (corpus : List Char) : List String :=
  ((if sd.ec_number = "" then [] else [sd.ec_number]) ++ ecFindAll corpus).eraseDups

/-- `calculate_confidence(sequence_data, classification)`: sequential
weighted additions, clamped to `1.0` at the end.  (`sequence_data` is not
read by the source function either.) -/
def calculate_confidence (_sd : SequenceData) (cls : Classification) : ℚ :=
  let score : ℚ := 0
  let score := if !cls.keywords_found.isEmpty then
      score + CONFIDENCE_WEIGHTS.keyword_match *
        min ((cls.keywords_found.length : ℚ) / 5) 1
    else score
  let score := if !cls.ec_numbers.isEmpty then
      score + CONFIDENCE_WEIGHTS.ec_match else score
  let score := if !cls.gh_families.isEmpty then
      score + CONFIDENCE_WEIGHTS.gh_family_match else score
  let score := if cls.is_gut_expressed then
      score + CONFIDENCE_WEIGHTS.gut_tissue else score
  let score := if !cls.enzyme_types.isEmpty then
      score + 0.2 * ((cls.enzyme_scores.map Prod.snd).sum / cls.enzyme_scores.length)
    else score
  min score 1

/-- `classify_enzyme(sequence_data)`. -/
def classify_enzyme (sd : SequenceData) : Classification :=
  let corpus := searchText sd
  let em := enzymeMatches corpus
  let cls : Classification :=
    { enzyme_types := em.map Prod.fst
      enzyme_scores := em
      gh_families := ghFamiliesOf corpus
      ec_numbers := ecNumbers sd corpus
      confidence := 0
      is_gut_expressed := gutCheck sd corpus
      keywords_found := keywordsFound corpus }
  { cls with confidence := calculate_confidence sd cls }

/-- `annotate_batch`, per element (the loop mutates each dict in place and
processes the elements independently). -/
def annotate_one (sd : SequenceData) : SequenceData :=
  let cls := classify_enzyme sd
  { sd with
    annot := some cls
    enzyme_type := some (cls.enzyme_types.headD "unknown")
    confidence := some cls.confidence
    gh_family := some cls.gh_families.head?
    ec_number_annotated := some
      (match cls.ec_numbers.head? with
       | some e => some e
       | none => if sd.ec_number = "" then none else some sd.ec_number)
    }

def annotate_batch (sequences : List SequenceData) : List SequenceData :=
  sequences.map annotate_one

end EnzymeAnnotator

/-- A stable descending insertion sort by a rational key: the model of
Python's `sorted(..., key=..., reverse=True)` (Timsort, stable). -/
def insertDesc {α : Type} (key : α → ℚ) (x : α) : List α → List α
  | [] => [x]
  | y :: ys => if key x ≤ key y then y :: insertDesc key x ys else x :: y :: ys

def sortedByDesc {α : Type} (key : α → ℚ) : List α → List α
  | [] => []
  | x :: xs => insertDesc key x (sortedByDesc key xs)

namespace EnzymeAnnotator

/-- `rank_sequences(sequences, criteria)`: dispatch on the criteria string;
an unknown criteria falls through to `return sequences`. -/
def rank_sequences (sequences : List SequenceData) (criteria : String) : List SequenceData :=
  if criteria = "confidence" then
    sortedByDesc (fun s => s.confidence.getD 0) sequences
  else if criteria = "length" then
    sortedByDesc (fun s => (s.length : ℚ)) sequences
  else if criteria = "enzyme_score" then
    sortedByDesc (fun s =>
      match (match s.annot with
             | some cls => cls.enzyme_scores.map Prod.snd
             | none => []) with
      | [] => 0
      | v :: vs => vs.foldl max v) sequences
  else
    sequences

end EnzymeAnnotator

/-! ### `ExpressionValidator` (`backend/modules/expression_validate.py`)

`self.gut_tissues` / `self.dev_stages` are the configured lists lowered;
the configured terms are already lowercase, so the lists are used as is. -/

namespace ExpressionValidator

/-- `is_gut_expressed(sequence_data)`. -/
def is_gut_expressed (sd : SequenceData) : Bool :=
  GUT_TISSUES.any (fun g => containsSub g.data (lowerL sd.tissue.data)) ||
  (let search_text :=
    lowerL (String.intercalate " "
      [sd.description, sd.protein_name, pyStrList sd.keywords]).data
   GUT_TISSUES.any (fun g => containsSub g.data search_text))

/-- `get_tissue_type(sequence_data)`: priority containment checks on the
raw tissue field. -/
def get_tissue_type (sd : SequenceData) : Option String :=
  let tissue := lowerL sd.tissue.data
  if containsSub "midgut".data tissue then some "midgut"
  else if containsSub "foregut".data tissue then some "foregut"
  else if containsSub "hindgut".data tissue then some "hindgut"
  else if GUT_TISSUES.any (fun g => containsSub g.data tissue) then some "gut"
  else none

/-- `get_developmental_stage(sequence_data)`: explicit stage field first,
then a fallback scan of the description against the configured list. -/
def get_developmental_stage (sd : SequenceData) : Option String :=
  let stage := lowerL sd.stage.data
  if containsSub "larva".data stage || containsSub "larval".data stage then some "larval"
  else if containsSub "adult".data stage then some "adult"
  else if containsSub "pupa".data stage || containsSub "pupal".data stage then some "pupal"
  else
    let description := lowerL sd.description.data
    DEVELOPMENTAL_STAGES.find? (fun ds => containsSub ds.data description)

/-- `calculate_expression_score(sequence_data)`. -/
def calculate_expression_score (sd : SequenceData) : ℚ :=
  let score : ℚ := 0
  let score := if is_gut_expressed sd then
      let score := score + 0.4
      if (match get_tissue_type sd with
          | some t => decide (t ∈ (["midgut", "foregut", "hindgut"] : List String))
          | none => false) then score + 0.2 else score
    else score
  let score := if (get_developmental_stage sd).isSome then score + 0.2 else score
  let score := if get_developmental_stage sd = some "larval" then score + 0.2 else score
  min score 1

/-- `validate_batch`, per element: writes the four expression keys, then
re-blends the overall confidence when the record carries one. -/
def validate_one (sd : SequenceData) : SequenceData :=
  let e := calculate_expression_score sd
  { sd with
    is_gut_expressed := some (is_gut_expressed sd)
    tissue_type := some (get_tissue_type sd)
    dev_stage_validated := some (get_developmental_stage sd)
    expression_score := some e
    confidence := sd.confidence.map (fun c => c * 0.7 + e * 0.3) }

def validate_batch (sequences : List SequenceData) : List SequenceData :=
  sequences.map validate_one

end ExpressionValidator

/-! ### `BLASTFilter` (`backend/modules/blast_filter.py`)

The remote BLAST search is an external collaborator (spec §2): the hits a
candidate obtained are taken as an input.  Only the scoring and the
confidence blend are part of the verified core. -/

namespace BLASTFilter

/-- `calculate_homology_score(hits)` with the shipped thresholds:
best hit by bitscore (Python `max` keeps the first maximal element),
then a weighted average of normalised identity/coverage/e-value. -/
def calculate_homology_score (hits : List BlastHit) : ℚ :=
  match hits with
  | [] => 0
  | h :: hs =>
    let best := hs.foldl (fun b x => if x.bitscore > b.bitscore then x else b) h
    let identity_score := min (best.identity / 100) 1
    let coverage_score := min (best.coverage / 100) 1
    let evalue_score := max 0 (1 - best.evalue / BLAST_EVALUE_THRESHOLD)
    identity_score * 0.4 + coverage_score * 0.3 + evalue_score * 0.3

/-- `annotate_with_blast`, per element, with `hits` the filtered hits the
candidate obtained from the external BLAST boundary: sequences that are
empty or shorter than 50 characters are skipped (score 0, confidence left
untouched); otherwise the homology score is stored and the confidence is
re-blended when the record carries one. -/
def annotate_one (hits : List BlastHit) (sd : SequenceData) : SequenceData :=
  if sd.sequence = "" || sd.sequence.length < 50 then
    { sd with blast_score := some 0, blast_hits := [] }
  else
    let homology_score := calculate_homology_score hits
    { sd with
      blast_hits := hits
      blast_score := some homology_score
      confidence := sd.confidence.map (fun c => c * 0.6 + homology_score * 0.4) }

def annotate_with_blast (hitsFor : SequenceData → List BlastHit)
    (sequences : List SequenceData) : List SequenceData :=
  sequences.map (fun sd => annotate_one (hitsFor sd) sd)

end BLASTFilter

/-! ### `DigestiveMatrixBuilder` (`backend/modules/matrix_builder.py`) -/

/-- One row of the ranked matrix (column names carry spaces and slashes in
the source: `"GH/AA Family"`, `"Gene ID"`, `"Gene Name"`, `"BLAST Score"`).
`Option String` columns model Python `None` entries (pandas `NaN`). -/
structure Row where
  Enzyme : String
  EC : Option String
  GH_AA_Family : Option String
  Gene_ID : String
  Gene_Name : String
  Protein : String
  Organism : String
  Tissue : Option String
  Stage : Option String
  Length : Nat
  Confidence : ℚ
  Expression : ℚ
  BLAST_Score : ℚ
  Function : String
deriving DecidableEq

namespace DigestiveMatrixBuilder

/-- `_infer_function(sequence)`: static lookup with a generic fallback. -/
def infer_function (sd : SequenceData) : String :=
  (([("cellulase", "Cellulose hydrolysis"),
     ("laccase", "Lignin oxidation"),
     ("peroxidase", "Lignin degradation"),
     ("oxidase", "Oxidative degradation"),
     ("xylanase", "Hemicellulose breakdown"),
     ("beta-glucosidase", "Cellulose hydrolysis"),
     ("mannanase", "Hemicellulose breakdown")] : List (String × String)).lookup
    (sd.enzyme_type.getD "")).getD "Wood polymer degradation"

/-- Python `round(x, 3)`.  The source rounds binary floats half-to-even;
the tie-breaking mode is immaterial to every claim and is modelled with
`round` on `ℚ`. -/
def round3 (q : ℚ) : ℚ := round (q * 1000) / 1000

/-- The row projection of `build_matrix` (`seq.get(key, fallback)` chains
as in the source). -/
def toRow (sd : SequenceData) : Row :=
  { Enzyme := sd.enzyme_type.getD "unknown"
    EC := match sd.ec_number_annotated with
          | some v => v
          | none => some ""
    GH_AA_Family := match sd.gh_family with
          | some v => v
          | none => some ""
    Gene_ID := sd.accession
    Gene_Name := sd.gene_name
    Protein := sd.protein_name
    Organism := sd.organism
    Tissue := match sd.tissue_type with
          | some v => v
          | none => some sd.tissue
    Stage := match sd.dev_stage_validated with
          | some v => v
          | none => some sd.stage
    Length := sd.length
    Confidence := round3 (sd.confidence.getD 0)
    Expression := round3 (sd.expression_score.getD 0)
    BLAST_Score := round3 (sd.blast_score.getD 0)
    Function := infer_function sd }

/-- `build_matrix(sequences, min_confidence)`: confidence filter, row
projection, then `df.sort_values("Confidence", ascending=False)`.  When no
candidate passes the filter, `pd.DataFrame([])` has no columns at all and
`sort_values` raises `KeyError: 'Confidence'` — modelled as `Except.error`.
`sort_values` is called with its default `kind='quicksort'`, which pandas
documents as NOT stable; the sort is modelled here only up to the order of
tied rows (no theorem below relies on the tie order of this function). -/
def build_matrix (sequences : List SequenceData) (min_confidence : ℚ) :
    Except String (List Row) :=
  let filtered := sequences.filter (fun s => min_confidence ≤ s.confidence.getD 0)
  let matrix_data := filtered.map toRow
  if matrix_data.isEmpty then
    Except.error "KeyError: \x27Confidence\x27"
  else
    Except.ok (sortedByDesc (fun r => r.Confidence) matrix_data)

/-- `value_counts().to_dict()` on a pandas column: `None`/`NaN` entries are
excluded; modelled in first-occurrence order (pandas orders by frequency;
every claim only uses the empty/contents level). -/
def valueCounts (col : List (Option String)) : List (String × Nat) :=
  let vals := col.filterMap id
  vals.eraseDups.map (fun v => (v, vals.count v))

/-- `generate_summary(matrix_df)`.  `mean()` of an empty column is `NaN`,
modelled as `none`. -/
structure Summary where
  total_enzymes : Nat
  unique_enzyme_types : Nat
  enzyme_distribution : List (String × Nat)
  organism_distribution : List (String × Nat)
  tissue_distribution : List (String × Nat)
  stage_distribution : List (String × Nat)
  gh_family_distribution : List (String × Nat)
  avg_confidence : Option ℚ
  high_confidence_count : Nat
  gut_expressed_count : Nat
  larval_stage_count : Nat
deriving DecidableEq

def generate_summary (matrix_df : List Row) : Summary :=
  { total_enzymes := matrix_df.length
    unique_enzyme_types := (matrix_df.map Row.Enzyme).eraseDups.length
    enzyme_distribution := valueCounts (matrix_df.map (fun r => some r.Enzyme))
    organism_distribution := valueCounts (matrix_df.map (fun r => some r.Organism))
    tissue_distribution := valueCounts (matrix_df.map Row.Tissue)
    stage_distribution := valueCounts (matrix_df.map Row.Stage)
    gh_family_distribution :=
      valueCounts ((matrix_df.filter (fun r => r.GH_AA_Family ≠ some "")).map
        Row.GH_AA_Family)
    avg_confidence :=
      if matrix_df.isEmpty then none
      else some ((matrix_df.map Row.Confidence).sum / matrix_df.length)
    high_confidence_count := matrix_df.countP (fun r => r.Confidence ≥ 0.8)
    gut_expressed_count := matrix_df.countP (fun r =>
      match r.Tissue with
      | some t => containsSub "gut".data t.data
      | none => false)
    larval_stage_count := matrix_df.countP (fun r =>
      match r.Stage with
      | some s => containsSub "larval".data s.data
      | none => false) }

/-- `rank_by_criteria(matrix_df, criteria)`: `"overall"` sorts by the
composite `Confidence*0.5 + Expression*0.3 + BLAST*0.2`; three further
criteria sort by a single column; an unknown criteria falls through to
`return matrix_df` unchanged. -/
def rank_by_criteria (matrix_df : List Row) (criteria : String) : List Row :=
  if criteria = "overall" then
    sortedByDesc (fun r => r.Confidence * 0.5 + r.Expression * 0.3 +
      r.BLAST_Score * 0.2) matrix_df
  else if criteria = "confidence" then
    sortedByDesc (fun r => r.Confidence) matrix_df
  else if criteria = "expression" then
    sortedByDesc (fun r => r.Expression) matrix_df
  else if criteria = "blast" then
    sortedByDesc (fun r => r.BLAST_Score) matrix_df
  else
    matrix_df

/-- `export_matrix(matrix_df, output_file, format)`: the file writing is
an external sink; the verified content is the dispatch, which raises
`ValueError(f"Unsupported format: {format}")` on an unknown format. -/
def export_matrix (_matrix_df : List Row) (format : String) : Except String Unit :=
  if format = "csv" then Except.ok ()
  else if format = "json" then Except.ok ()
  else if format = "excel" then Except.ok ()
  else Except.error ("Unsupported format: " ++ format)

end DigestiveMatrixBuilder

/-! ### The spec-side confidence formula

Refinement target for the confidence claims: the weighted sum stated by
the spec (§4.1 step 7), written in the spec's one-shot shape — each term
present exactly when its evidence is non-empty — to be compared against
the sequential accumulation of `calculate_confidence`. -/

/-- The spec's weighted sum, before the clamp. -/
def specScore (cls : Classification) : ℚ :=
  (if cls.keywords_found ≠ [] then
      CONFIDENCE_WEIGHTS.keyword_match * min ((cls.keywords_found.length : ℚ) / 5) 1
   else 0)
  + (if cls.ec_numbers ≠ [] then CONFIDENCE_WEIGHTS.ec_match else 0)
  + (if cls.gh_families ≠ [] then CONFIDENCE_WEIGHTS.gh_family_match else 0)
  + (if cls.is_gut_expressed then CONFIDENCE_WEIGHTS.gut_tissue else 0)
  + (if cls.enzyme_types ≠ [] then
      0.2 * ((cls.enzyme_scores.map Prod.snd).sum / cls.enzyme_scores.length)
     else 0)

/-- The spec's confidence: the weighted sum clamped to `1.0`. -/
def specConfidence (cls : Classification) : ℚ := min (specScore cls) 1

/-! ### Concrete inputs used by witnesses and counterexamples -/

/-- A candidate carrying a confidence value and a 50-residue sequence. -/
def wBlendSeq : SequenceData :=
  { accession := "W1"
    confidence := some (1/2)
    sequence := "MKLVLSLSLVATLLLLAGCKPVQAKVQDVRNLVVGVYSDQFSMVVTDLGK" }

/-- One accepted hit for the blend witness. -/
def wBlendHits : List BlastHit :=
  [{ identity := 50, coverage := 80, evalue := 0, bitscore := 100 }]

/-- Counterexample candidate: the description "phenol" and the protein
name "oxidase" meet across the corpus join and match the configured
keyword "phenol oxidase". -/
def cexSeqA : SequenceData :=
  { tissue := "midgut", description := "phenol", protein_name := "oxidase" }

/-- The same candidate after the gut-tissue term "foregut" (absent from
every text field of `cexSeqA`) is added to the description. -/
def cexSeqB : SequenceData :=
  { cexSeqA with description := cexSeqA.description ++ " foregut" }

/-- A candidate below every interesting threshold. -/
def wLowSeq : SequenceData := { accession := "L1", confidence := some (2/5) }

/-- A candidate above the default threshold. -/
def wHighSeq : SequenceData := { accession := "H1", confidence := some (9/10) }

/-! ### General lemmas about the embedded primitives -/

theorem length_insertDesc {α : Type} (key : α → ℚ) (x : α) (l : List α) :
    (insertDesc key x l).length = l.length + 1 := by
  induction l with
  | nil => rfl
  | cons y ys ih =>
    unfold insertDesc
    split
    · simp [ih]
    · simp

theorem length_sortedByDesc {α : Type} (key : α → ℚ) (l : List α) :
    (sortedByDesc key l).length = l.length := by
  induction l with
  | nil => rfl
  | cons x xs ih => simp [sortedByDesc, length_insertDesc, ih]

theorem containsSub_self (n : List Char) : containsSub n n = true := by
  have h : n.isPrefixOf n = true := by
    induction n with
    | nil => rfl
    | cons a t ih => simp [List.isPrefixOf, ih]
  cases n with
  | nil => rfl
  | cons a t => simp [containsSub, h]

theorem containsSub_append_left (n h₁ h₂ : List Char)
    (h : containsSub n h₂ = true) : containsSub n (h₁ ++ h₂) = true := by
  induction h₁ with
  | nil => simpa using h
  | cons a t ih =>
    rw [List.cons_append]
    unfold containsSub
    simp [ih]

theorem sum_div_length_bounds (l : List ℚ) (h : ∀ x ∈ l, 0 ≤ x ∧ x ≤ 1) :
    0 ≤ l.sum / l.length ∧ l.sum / l.length ≤ 1 := by
  cases l with
  | nil => simp
  | cons a t =>
    have hlen : (0 : ℚ) < ((a :: t).length : ℚ) := by
      simp only [List.length_cons]
      positivity
    have hsum0 : 0 ≤ (a :: t).sum :=
      List.sum_nonneg (fun x hx => (h x hx).1)
    have hsum1 : (a :: t).sum ≤ ((a :: t).length : ℚ) := by
      have := List.sum_le_card_nsmul (a :: t) 1 (fun x hx => (h x hx).2)
      simpa [nsmul_eq_mul] using this
    exact ⟨div_nonneg hsum0 hlen.le, (div_le_one hlen).mpr hsum1⟩

theorem enzymeMatches_mem_bounds (corpus : List Char) (p : String × ℚ)
    (hp : p ∈ EnzymeAnnotator.enzymeMatches corpus) : 0 ≤ p.2 ∧ p.2 ≤ 1 := by
  simp only [EnzymeAnnotator.enzymeMatches, List.mem_filterMap] at hp
  obtain ⟨tk, -, htk⟩ := hp
  split at htk
  · rename_i hm
    have hle : tk.2.countP (fun kw => kwHit kw corpus) ≤ tk.2.length :=
      List.countP_le_length _
    have hmn : 0 < tk.2.countP (fun kw => kwHit kw corpus) := by exact_mod_cast hm
    have hlenpos : 0 < tk.2.length := lt_of_lt_of_le hmn hle
    have hlen : (0 : ℚ) < (tk.2.length : ℚ) := by exact_mod_cast hlenpos
    obtain rfl := (Option.some_inj.mp htk)
    refine ⟨div_nonneg (by positivity) hlen.le, ?_⟩
    exact (div_le_one hlen).mpr (by exact_mod_cast hle)
  · exact absurd htk (by simp)

theorem specScore_bounds (cls : Classification)
    (hes : ∀ p ∈ cls.enzyme_scores, 0 ≤ p.2 ∧ p.2 ≤ 1) :
    0 ≤ specScore cls ∧ specScore cls ≤ 0.7 := by
  have havg := sum_div_length_bounds (cls.enzyme_scores.map Prod.snd) (by
    intro x hx
    obtain ⟨p, hp, rfl⟩ := List.mem_map.mp hx
    exact hes p hp)
  rw [List.length_map] at havg
  obtain ⟨ha0, ha1⟩ := havg
  have hm0 : (0:ℚ) ≤ min ((cls.keywords_found.length : ℚ) / 5) 1 :=
    le_min (by positivity) (by norm_num)
  have hm1 : min ((cls.keywords_found.length : ℚ) / 5) 1 ≤ 1 := min_le_right _ _
  have e1 : CONFIDENCE_WEIGHTS.keyword_match = (0.1 : ℚ) := rfl
  have e2 : CONFIDENCE_WEIGHTS.ec_match = (0.15 : ℚ) := rfl
  have e3 : CONFIDENCE_WEIGHTS.gh_family_match = (0.15 : ℚ) := rfl
  have e4 : CONFIDENCE_WEIGHTS.gut_tissue = (0.1 : ℚ) := rfl
  unfold specScore
  rw [e1, e2, e3, e4]
  constructor
  · split_ifs <;> linarith
  · split_ifs <;> linarith

theorem isEmpty_eq_decide {α : Type} [DecidableEq α] (l : List α) :
    l.isEmpty = decide (l = []) := by
  cases l <;> simp

set_option maxHeartbeats 1000000 in
/-- The sequential accumulation of `calculate_confidence` computes exactly
the spec's clamped weighted sum. -/
theorem calculate_confidence_eq (sd : SequenceData) (cls : Classification) :
    EnzymeAnnotator.calculate_confidence sd cls = specConfidence cls := by
  unfold EnzymeAnnotator.calculate_confidence specConfidence specScore
  by_cases h1 : cls.keywords_found = [] <;>
  by_cases h2 : cls.ec_numbers = [] <;>
  by_cases h3 : cls.gh_families = [] <;>
  by_cases h4 : cls.is_gut_expressed <;>
  by_cases h5 : cls.enzyme_types = [] <;>
  simp only [isEmpty_eq_decide, h1, h2, h3, h4, h5, decide_not, ne_eq,
    decide_True, decide_False, Bool.not_true, Bool.not_false, if_true, if_false,
    not_false_eq_true, not_true_eq_false, ite_true, ite_false,
    eq_self_iff_true, Bool.false_eq_true, Bool.true_eq_false] <;>
  first
  | rfl
  | (congr 1 <;> ring)

/-- The classifier's stored confidence is `calculate_confidence` of its own
evidence (the final field update does not feed back into the formula). -/
theorem classify_confidence_eq (sd : SequenceData) :
    (EnzymeAnnotator.classify_enzyme sd).confidence
      = specConfidence (EnzymeAnnotator.classify_enzyme sd) := by
  rw [show (EnzymeAnnotator.classify_enzyme sd).confidence
      = EnzymeAnnotator.calculate_confidence sd (EnzymeAnnotator.classify_enzyme sd) from rfl]
  exact calculate_confidence_eq sd _

theorem classify_scores_eq (sd : SequenceData) :
    (EnzymeAnnotator.classify_enzyme sd).enzyme_scores
      = EnzymeAnnotator.enzymeMatches (EnzymeAnnotator.searchText sd) := rfl

theorem classify_scores_bounds (sd : SequenceData) :
    ∀ p ∈ (EnzymeAnnotator.classify_enzyme sd).enzyme_scores, 0 ≤ p.2 ∧ p.2 ≤ 1 := by
  intro p hp
  rw [classify_scores_eq] at hp
  exact enzymeMatches_mem_bounds _ p hp

/-! ### Claim theorems -/

/-- C1: for every candidate carrying a confidence value, the blend after
expression validation is `old × 0.7 + expression_score × 0.3`, and the
blend after homology scoring (here: a candidate the BLAST stage actually
scores, i.e. with a sequence of at least 50 residues) is
`already-blended × 0.6 + homology_score × 0.4`, applied in strict pipeline
order. -/
theorem C1_confidence_blender (sd : SequenceData) (c : ℚ) (hits : List BlastHit)
    (hc : sd.confidence = some c) (hlen : 50 ≤ sd.sequence.length) :
    (ExpressionValidator.validate_one sd).confidence
      = some (c * 0.7 + ExpressionValidator.calculate_expression_score sd * 0.3) ∧
    (BLASTFilter.annotate_one hits (ExpressionValidator.validate_one sd)).confidence
      = some ((c * 0.7 + ExpressionValidator.calculate_expression_score sd * 0.3) * 0.6
          + BLASTFilter.calculate_homology_score hits * 0.4) := by
  have h1 : (ExpressionValidator.validate_one sd).confidence
      = some (c * 0.7 + ExpressionValidator.calculate_expression_score sd * 0.3) := by
    show (sd.confidence.map
      (fun c => c * 0.7 + ExpressionValidator.calculate_expression_score sd * 0.3)) = _
    rw [hc]
    rfl
  refine ⟨h1, ?_⟩
  have hne : ((ExpressionValidator.validate_one sd).sequence = ""
      || (ExpressionValidator.validate_one sd).sequence.length < 50) = false := by
    have hsq : (ExpressionValidator.validate_one sd).sequence = sd.sequence := rfl
    rw [hsq, Bool.or_eq_false_iff]
    constructor
    · rw [decide_eq_false_iff_not]
      intro h0
      rw [h0] at hlen
      simp at hlen
    · rw [decide_eq_false_iff_not]
      omega
  unfold BLASTFilter.annotate_one
  rw [hne]
  show ((ExpressionValidator.validate_one sd).confidence.map
    (fun c => c * 0.6 + BLASTFilter.calculate_homology_score hits * 0.4)) = _
  rw [h1]
  rfl

/-- C1 witness: a concrete candidate with confidence `1/2`, a 50-residue
sequence and one concrete hit. -/
theorem C1_confidence_blender_witness :
    wBlendSeq.confidence = some (1/2) ∧ 50 ≤ wBlendSeq.sequence.length ∧
    ((ExpressionValidator.validate_one wBlendSeq).confidence
      = some ((1/2) * 0.7 + ExpressionValidator.calculate_expression_score wBlendSeq * 0.3) ∧
    (BLASTFilter.annotate_one wBlendHits (ExpressionValidator.validate_one wBlendSeq)).confidence
      = some (((1/2) * 0.7 + ExpressionValidator.calculate_expression_score wBlendSeq * 0.3) * 0.6
          + BLASTFilter.calculate_homology_score wBlendHits * 0.4)) :=
  ⟨rfl, by decide, C1_confidence_blender wBlendSeq (1/2) wBlendHits rfl (by decide)⟩

/-- C2: for every candidate, the classifier's confidence is the spec's
clamped weighted sum `specConfidence` over its evidence — the keyword term
scaled by `min(|keywords_found|/5, 1)`, fixed bonuses for non-empty
EC/family evidence and the gut flag, `0.2 ×` the average per-type match
score when at least one type matched, clamped to `1.0` (see `specScore`). -/
theorem C2_confidence_weighted_sum (sd : SequenceData) :
    (EnzymeAnnotator.classify_enzyme sd).confidence
      = specConfidence (EnzymeAnnotator.classify_enzyme sd) :=
  classify_confidence_eq sd

/-- C10: under the shipped weights the classification confidence equals the
unclamped weighted sum (the clamp at `1.0` never binds), is at most `0.7`,
and in particular never reaches the `0.8` high-confidence threshold. -/
theorem C10_confidence_cap (sd : SequenceData) :
    (EnzymeAnnotator.classify_enzyme sd).confidence
        = specScore (EnzymeAnnotator.classify_enzyme sd) ∧
    (EnzymeAnnotator.classify_enzyme sd).confidence ≤ 0.7 ∧
    (EnzymeAnnotator.classify_enzyme sd).confidence < 0.8 := by
  obtain ⟨hs0, hs7⟩ := specScore_bounds _ (classify_scores_bounds sd)
  have hcc := classify_confidence_eq sd
  have hmin : specConfidence (EnzymeAnnotator.classify_enzyme sd)
      = specScore (EnzymeAnnotator.classify_enzyme sd) := by
    unfold specConfidence
    exact min_eq_left (by linarith)
  refine ⟨hcc.trans hmin, ?_, ?_⟩ <;> rw [hcc, hmin] <;> linarith

/-- The spec weighted sum never decreases when the gut flag is turned on
(all other evidence equal). -/
theorem specScore_gut_mono (cls : Classification) :
    specScore cls ≤ specScore { cls with is_gut_expressed := true } := by
  obtain ⟨et, es, gf, ec, cf, ge, kf⟩ := cls
  cases ge
  · unfold specScore
    simp only [Bool.false_eq_true, if_false, if_true, ite_true, ite_false]
    have hw : CONFIDENCE_WEIGHTS.gut_tissue = (0.1 : ℚ) := rfl
    rw [hw]
    linarith
  · exact le_refl _

/-- Appending a configured gut-tissue term to the raw tissue field makes
the classifier's gut check succeed. -/
theorem gutCheck_tissue_append (sd : SequenceData) (g : String)
    (hg : g ∈ GUT_TISSUES) (corpus : List Char) :
    EnzymeAnnotator.gutCheck { sd with tissue := sd.tissue ++ " " ++ g } corpus = true := by
  unfold EnzymeAnnotator.gutCheck
  rw [List.any_eq_true]
  refine ⟨g, hg, ?_⟩
  rw [Bool.or_eq_true]
  left
  have hdata : ({ sd with tissue := sd.tissue ++ " " ++ g } : SequenceData).tissue.data
      = sd.tissue.data ++ (" " ++ g).data := by
    show (sd.tissue ++ " " ++ g).data = _
    rw [String.data_append, String.data_append, String.data_append, List.append_assoc]
  rw [hdata]
  unfold lowerL
  rw [List.map_append]
  apply containsSub_append_left
  fin_cases hg <;> decide

/-- Discrete evidence of the counterexample candidate `cexSeqA`: the
corpus "phenol oxidase   []" matches the keywords "phenol oxidase" and
"oxidase" (one keyword of each of the laccase and oxidase types), no
EC number, no family code, and the gut flag holds via the tissue field. -/
theorem cexSeqA_evidence :
    (EnzymeAnnotator.classify_enzyme cexSeqA).keywords_found
        = ["phenol oxidase", "oxidase"] ∧
    (EnzymeAnnotator.classify_enzyme cexSeqA).ec_numbers = [] ∧
    (EnzymeAnnotator.classify_enzyme cexSeqA).gh_families = [] ∧
    (EnzymeAnnotator.classify_enzyme cexSeqA).is_gut_expressed = true ∧
    (EnzymeAnnotator.classify_enzyme cexSeqA).enzyme_types = ["laccase", "oxidase"] := by
  refine ⟨by decide, by decide, by decide, by decide, by decide⟩

/-- Discrete evidence of `cexSeqB`: inserting " foregut" into the
description breaks the spanning "phenol oxidase" match. -/
theorem cexSeqB_evidence :
    (EnzymeAnnotator.classify_enzyme cexSeqB).keywords_found = ["oxidase"] ∧
    (EnzymeAnnotator.classify_enzyme cexSeqB).ec_numbers = [] ∧
    (EnzymeAnnotator.classify_enzyme cexSeqB).gh_families = [] ∧
    (EnzymeAnnotator.classify_enzyme cexSeqB).is_gut_expressed = true ∧
    (EnzymeAnnotator.classify_enzyme cexSeqB).enzyme_types = ["oxidase"] := by
  refine ⟨by decide, by decide, by decide, by decide, by decide⟩

/-- Per-type keyword counts for `cexSeqA`'s corpus. -/
theorem cexSeqA_counts :
    (["cellulase", "endoglucanase", "cellobiohydrolase"] : List String).countP
      (fun kw => kwHit kw (EnzymeAnnotator.searchText cexSeqA)) = 0 ∧
    (["laccase", "phenol oxidase", "benzenediol oxidase"] : List String).countP
      (fun kw => kwHit kw (EnzymeAnnotator.searchText cexSeqA)) = 1 ∧
    (["peroxidase", "lignin peroxidase", "manganese peroxidase"] : List String).countP
      (fun kw => kwHit kw (EnzymeAnnotator.searchText cexSeqA)) = 0 ∧
    (["oxidase", "glucose oxidase", "aryl-alcohol oxidase"] : List String).countP
      (fun kw => kwHit kw (EnzymeAnnotator.searchText cexSeqA)) = 1 ∧
    (["xylanase", "endo-1,4-beta-xylanase"] : List String).countP
      (fun kw => kwHit kw (EnzymeAnnotator.searchText cexSeqA)) = 0 ∧
    (["beta-glucosidase", "cellobiase"] : List String).countP
      (fun kw => kwHit kw (EnzymeAnnotator.searchText cexSeqA)) = 0 ∧
    (["mannanase", "mannan endo-1,4-beta-mannosidase"] : List String).countP
      (fun kw => kwHit kw (EnzymeAnnotator.searchText cexSeqA)) = 0 := by
  refine ⟨by decide, by decide, by decide, by decide, by decide, by decide, by decide⟩

/-- Per-type keyword counts for `cexSeqB`'s corpus. -/
theorem cexSeqB_counts :
    (["cellulase", "endoglucanase", "cellobiohydrolase"] : List String).countP
      (fun kw => kwHit kw (EnzymeAnnotator.searchText cexSeqB)) = 0 ∧
    (["laccase", "phenol oxidase", "benzenediol oxidase"] : List String).countP
      (fun kw => kwHit kw (EnzymeAnnotator.searchText cexSeqB)) = 0 ∧
    (["peroxidase", "lignin peroxidase", "manganese peroxidase"] : List String).countP
      (fun kw => kwHit kw (EnzymeAnnotator.searchText cexSeqB)) = 0 ∧
    (["oxidase", "glucose oxidase", "aryl-alcohol oxidase"] : List String).countP
      (fun kw => kwHit kw (EnzymeAnnotator.searchText cexSeqB)) = 1 ∧
    (["xylanase", "endo-1,4-beta-xylanase"] : List String).countP
      (fun kw => kwHit kw (EnzymeAnnotator.searchText cexSeqB)) = 0 ∧
    (["beta-glucosidase", "cellobiase"] : List String).countP
      (fun kw => kwHit kw (EnzymeAnnotator.searchText cexSeqB)) = 0 ∧
    (["mannanase", "mannan endo-1,4-beta-mannosidase"] : List String).countP
      (fun kw => kwHit kw (EnzymeAnnotator.searchText cexSeqB)) = 0 := by
  refine ⟨by decide, by decide, by decide, by decide, by decide, by decide, by decide⟩

/-- The confidence of `cexSeqA` evaluates to 31/150. -/
theorem cexSeqA_confidence :
    (EnzymeAnnotator.classify_enzyme cexSeqA).confidence = 31/150 := by
  obtain ⟨hkf, hec, hgh, hgut, hty⟩ := cexSeqA_evidence
  obtain ⟨c1, c2, c3, c4, c5, c6, c7⟩ := cexSeqA_counts
  have hsc : (EnzymeAnnotator.classify_enzyme cexSeqA).enzyme_scores
      = [("laccase", (1:ℚ)/3), ("oxidase", (1:ℚ)/3)] := by
    rw [classify_scores_eq]
    unfold EnzymeAnnotator.enzymeMatches ENZYME_KEYWORDS
    simp only [List.filterMap_cons, List.filterMap_nil, c1, c2, c3, c4, c5, c6, c7]
    norm_num
  rw [classify_confidence_eq]
  unfold specConfidence specScore
  rw [hkf, hec, hgh, hgut, hty, hsc]
  norm_num [CONFIDENCE_WEIGHTS, min_def]
  try simp
  try norm_num

/-- The confidence of `cexSeqB` evaluates to 28/150. -/
theorem cexSeqB_confidence :
    (EnzymeAnnotator.classify_enzyme cexSeqB).confidence = 28/150 := by
  obtain ⟨hkf, hec, hgh, hgut, hty⟩ := cexSeqB_evidence
  obtain ⟨c1, c2, c3, c4, c5, c6, c7⟩ := cexSeqB_counts
  have hsc : (EnzymeAnnotator.classify_enzyme cexSeqB).enzyme_scores
      = [("oxidase", (1:ℚ)/3)] := by
    rw [classify_scores_eq]
    unfold EnzymeAnnotator.enzymeMatches ENZYME_KEYWORDS
    simp only [List.filterMap_cons, List.filterMap_nil, c1, c2, c3, c4, c5, c6, c7]
    norm_num
  rw [classify_confidence_eq]
  unfold specConfidence specScore
  rw [hkf, hec, hgh, hgut, hty, hsc]
  norm_num [CONFIDENCE_WEIGHTS, min_def]
  try simp
  try norm_num

/-- C3 counterexample: the claim fails as stated.  `cexSeqA` (tissue
"midgut", description "phenol", protein name "oxidase") matches the
keyword "phenol oxidase" across the corpus join.  Adding the
previously-absent gut-tissue term "foregut" to the description text field
(`cexSeqB`) breaks that spanning keyword match, and — the gut flag being
already set via the tissue field — the confidence strictly decreases
(from 31/150 to 28/150). -/
theorem C3_counterexample :
    "foregut" ∈ GUT_TISSUES ∧
    containsSub "foregut".data (lowerL (EnzymeAnnotator.searchText cexSeqA)) = false ∧
    containsSub "foregut".data (lowerL cexSeqA.tissue.data) = false ∧
    cexSeqB = { cexSeqA with description := cexSeqA.description ++ " foregut" } ∧
    (EnzymeAnnotator.classify_enzyme cexSeqB).confidence
      < (EnzymeAnnotator.classify_enzyme cexSeqA).confidence := by
  refine ⟨by decide, by decide, by decide, rfl, ?_⟩
  rw [cexSeqA_confidence, cexSeqB_confidence]
  norm_num

/-- C3 amended: for every candidate the classification confidence lies in
`[0,1]`; and adding a previously-absent gut-tissue term to the raw tissue
field never decreases the confidence.  (The original claim's parenthetical
— that adding any keyword/EC/family match to the text fields also never
decreases it — is refuted by `C3_counterexample`: new keyword evidence can
lower the average per-type match score, and a gut term inserted into one
text field can break a keyword match spanning the corpus join.) -/
theorem C3_amended (sd : SequenceData) (g : String) (hg : g ∈ GUT_TISSUES) :
    0 ≤ (EnzymeAnnotator.classify_enzyme sd).confidence ∧
    (EnzymeAnnotator.classify_enzyme sd).confidence ≤ 1 ∧
    (EnzymeAnnotator.classify_enzyme sd).confidence ≤
      (EnzymeAnnotator.classify_enzyme
        { sd with tissue := sd.tissue ++ " " ++ g }).confidence := by
  obtain ⟨h0, h7⟩ := specScore_bounds _ (classify_scores_bounds sd)
  have hA := classify_confidence_eq sd
  have hB := classify_confidence_eq { sd with tissue := sd.tissue ++ " " ++ g }
  refine ⟨?_, ?_, ?_⟩
  · rw [hA]
    exact le_min h0 zero_le_one
  · rw [hA]
    exact min_le_right _ _
  · rw [hA, hB]
    have hgut : (EnzymeAnnotator.classify_enzyme
        { sd with tissue := sd.tissue ++ " " ++ g }).is_gut_expressed = true := by
      show EnzymeAnnotator.gutCheck { sd with tissue := sd.tissue ++ " " ++ g }
        (EnzymeAnnotator.searchText { sd with tissue := sd.tissue ++ " " ++ g }) = true
      exact gutCheck_tissue_append sd g hg _
    have key : specConfidence (EnzymeAnnotator.classify_enzyme
          { sd with tissue := sd.tissue ++ " " ++ g })
        = specConfidence { EnzymeAnnotator.classify_enzyme sd with is_gut_expressed := true } := by
      unfold specConfidence specScore
      rw [hgut]
      rfl
    rw [key]
    exact min_le_min (specScore_gut_mono _) (le_refl 1)

/-- C3 witness: the amended statement at a concrete candidate and the
concrete gut term "gut". -/
theorem C3_amended_witness :
    "gut" ∈ GUT_TISSUES ∧
    (0 ≤ (EnzymeAnnotator.classify_enzyme cexSeqA).confidence ∧
     (EnzymeAnnotator.classify_enzyme cexSeqA).confidence ≤ 1 ∧
     (EnzymeAnnotator.classify_enzyme cexSeqA).confidence ≤
       (EnzymeAnnotator.classify_enzyme
         { cexSeqA with tissue := cexSeqA.tissue ++ " " ++ "gut" }).confidence) :=
  ⟨by decide, C3_amended cexSeqA "gut" (by decide)⟩

/-- A specific gut-region tissue subtype implies the gut-expression flag:
each of the three region terms contains a configured gut term as a
substring of the same tissue field. -/
theorem tissue_specific_gut (sd : SequenceData)
    (h : ExpressionValidator.get_tissue_type sd
      ∈ [some "midgut", some "foregut", some "hindgut"]) :
    ExpressionValidator.is_gut_expressed sd = true := by
  unfold ExpressionValidator.is_gut_expressed
  rw [Bool.or_eq_true]
  left
  rw [List.any_eq_true]
  simp only [ExpressionValidator.get_tissue_type] at h
  split_ifs at h with h1 h2 h3 h4
  · exact ⟨"midgut", by decide, h1⟩
  · exact ⟨"foregut", by decide, h2⟩
  · exact ⟨"hindgut", by decide, h3⟩
  · simp at h
  · simp at h

/-- C4: for every candidate the expression score is exactly the clamped
sum of the spec's four bonuses: 0.4 when gut-expressed, 0.2 more when the
resolved tissue subtype is one of the three specific gut regions (never
the generic "gut" fallback), 0.2 when any developmental stage resolves,
and 0.2 more when the resolved stage is "larval". -/
theorem C4_expression_score (sd : SequenceData) :
    ExpressionValidator.calculate_expression_score sd =
      min ((if ExpressionValidator.is_gut_expressed sd then (0.4:ℚ) else 0)
        + (if ExpressionValidator.get_tissue_type sd
            ∈ [some "midgut", some "foregut", some "hindgut"] then (0.2:ℚ) else 0)
        + (if (ExpressionValidator.get_developmental_stage sd).isSome then (0.2:ℚ) else 0)
        + (if ExpressionValidator.get_developmental_stage sd = some "larval"
            then (0.2:ℚ) else 0)) 1 := by
  have hmatch : (match ExpressionValidator.get_tissue_type sd with
      | some t => decide (t ∈ (["midgut", "foregut", "hindgut"] : List String))
      | none => false) = true
      ↔ ExpressionValidator.get_tissue_type sd
          ∈ [some "midgut", some "foregut", some "hindgut"] := by
    cases ho : ExpressionValidator.get_tissue_type sd <;> simp
  unfold ExpressionValidator.calculate_expression_score
  by_cases ht : ExpressionValidator.get_tissue_type sd
      ∈ [some "midgut", some "foregut", some "hindgut"]
  · have hg : ExpressionValidator.is_gut_expressed sd = true := tissue_specific_gut sd ht
    have htb := hmatch.mpr ht
    by_cases hl : ExpressionValidator.get_developmental_stage sd = some "larval"
    · have hsome : (ExpressionValidator.get_developmental_stage sd).isSome = true := by
        rw [hl]; rfl
      simp only [hg, htb, hl, hsome, ht, if_true, ite_true]
      first | rfl | (congr 1 <;> norm_num)
    · by_cases hsome : (ExpressionValidator.get_developmental_stage sd).isSome
      · simp only [hg, htb, hl, hsome, ht, if_true, ite_true, ite_false]
        first | rfl | (congr 1 <;> norm_num)
      · have hsome' : (ExpressionValidator.get_developmental_stage sd).isSome = false := by
          simpa using hsome
        simp only [hg, htb, hl, hsome', ht, if_true, ite_true, ite_false,
          Bool.false_eq_true]
        first | rfl | (congr 1 <;> norm_num)
  · have htb : (match ExpressionValidator.get_tissue_type sd with
        | some t => decide (t ∈ (["midgut", "foregut", "hindgut"] : List String))
        | none => false) = false := by
      rw [Bool.eq_false_iff]
      intro hc
      exact ht (hmatch.mp hc)
    by_cases hg : ExpressionValidator.is_gut_expressed sd
    · by_cases hl : ExpressionValidator.get_developmental_stage sd = some "larval"
      · have hsome : (ExpressionValidator.get_developmental_stage sd).isSome = true := by
          rw [hl]; rfl
        simp only [hg, htb, hl, hsome, ht, if_true, ite_true, ite_false,
          Bool.false_eq_true]
        first | rfl | (congr 1 <;> norm_num)
      · by_cases hsome : (ExpressionValidator.get_developmental_stage sd).isSome
        · simp only [hg, htb, hl, hsome, ht, if_true, ite_true, ite_false,
            Bool.false_eq_true]
          first | rfl | (congr 1 <;> norm_num)
        · have hsome' : (ExpressionValidator.get_developmental_stage sd).isSome = false := by
            simpa using hsome
          simp only [hg, htb, hl, hsome', ht, if_true, ite_true, ite_false,
            Bool.false_eq_true]
          first | rfl | (congr 1 <;> norm_num)
    · have hg' : ExpressionValidator.is_gut_expressed sd = false := by
        simpa using hg
      by_cases hl : ExpressionValidator.get_developmental_stage sd = some "larval"
      · have hsome : (ExpressionValidator.get_developmental_stage sd).isSome = true := by
          rw [hl]; rfl
        simp only [hg', htb, hl, hsome, ht, if_true, ite_true, ite_false,
          Bool.false_eq_true]
        first | rfl | (congr 1 <;> norm_num)
      · by_cases hsome : (ExpressionValidator.get_developmental_stage sd).isSome
        · simp only [hg', htb, hl, hsome, ht, if_true, ite_true, ite_false,
            Bool.false_eq_true]
          first | rfl | (congr 1 <;> norm_num)
        · have hsome' : (ExpressionValidator.get_developmental_stage sd).isSome = false := by
            simpa using hsome
          simp only [hg', htb, hl, hsome', ht, if_true, ite_true, ite_false,
            Bool.false_eq_true]
          first | rfl | (congr 1 <;> norm_num)

/-- C5 (at the failing input the code raises instead): when at least one
candidate passes the threshold, `build_matrix` succeeds and its row count
equals the number of input candidates with confidence ≥ t (a missing
confidence counts as 0); when no candidate passes — in particular whenever
t > 1.0 and the confidences are in [0,1] — `build_matrix` raises
`KeyError: 'Confidence'` (from `sort_values` on the column-less empty
`pd.DataFrame([])`) instead of returning an empty matrix. -/
theorem C5_matrix_filter_count (sequences : List SequenceData) (t : ℚ) :
    (0 < sequences.countP (fun s => t ≤ s.confidence.getD 0) →
      ∃ rows, DigestiveMatrixBuilder.build_matrix sequences t = Except.ok rows ∧
        rows.length = sequences.countP (fun s => t ≤ s.confidence.getD 0)) ∧
    (sequences.countP (fun s => t ≤ s.confidence.getD 0) = 0 →
      DigestiveMatrixBuilder.build_matrix sequences t
        = Except.error "KeyError: \x27Confidence\x27") := by
  have hlen : ((sequences.filter (fun s => decide (t ≤ s.confidence.getD 0))).map
      DigestiveMatrixBuilder.toRow).length
      = sequences.countP (fun s => decide (t ≤ s.confidence.getD 0)) := by
    rw [List.length_map, List.countP_eq_length_filter]
  constructor
  · intro hpos
    unfold DigestiveMatrixBuilder.build_matrix
    have hne : ((sequences.filter (fun s => decide (t ≤ s.confidence.getD 0))).map
        DigestiveMatrixBuilder.toRow).isEmpty = false := by
      rw [isEmpty_eq_decide, decide_eq_false_iff_not]
      intro h0
      rw [h0] at hlen
      simp at hlen
      omega
    simp only [hne, Bool.false_eq_true, if_false, ite_false]
    exact ⟨_, rfl, by rw [length_sortedByDesc, hlen]⟩
  · intro h0
    unfold DigestiveMatrixBuilder.build_matrix
    have hemp : ((sequences.filter (fun s => decide (t ≤ s.confidence.getD 0))).map
        DigestiveMatrixBuilder.toRow).isEmpty = true := by
      rw [isEmpty_eq_decide, decide_eq_true_eq]
      apply List.eq_nil_of_length_eq_zero
      rw [hlen]
      exact h0
    simp only [hemp, if_true, ite_true]

/-- C5 witness: two candidates (confidence 0.9 and 0.4) at threshold 1/2;
exactly one passes and the built matrix has exactly one row. -/
theorem C5_matrix_filter_count_witness :
    0 < ([wHighSeq, wLowSeq].countP (fun s => (1:ℚ)/2 ≤ s.confidence.getD 0)) ∧
    (∃ rows, DigestiveMatrixBuilder.build_matrix [wHighSeq, wLowSeq] (1/2)
        = Except.ok rows ∧
      rows.length = [wHighSeq, wLowSeq].countP (fun s => (1:ℚ)/2 ≤ s.confidence.getD 0)) := by
  have hcount : ([wHighSeq, wLowSeq].countP
      (fun s => decide ((1:ℚ)/2 ≤ s.confidence.getD 0))) = 1 := by
    have h1 : (decide ((1:ℚ)/2 ≤ wHighSeq.confidence.getD 0)) = true := by
      rw [decide_eq_true_eq]
      show (1:ℚ)/2 ≤ (9:ℚ)/10
      norm_num
    have h2 : (decide ((1:ℚ)/2 ≤ wLowSeq.confidence.getD 0)) = false := by
      rw [decide_eq_false_iff_not]
      show ¬ ((1:ℚ)/2 ≤ (2:ℚ)/5)
      norm_num
    simp only [List.countP_cons, List.countP_nil]
    rw [h1, h2]
    simp
  exact ⟨by rw [hcount]; omega,
    (C5_matrix_filter_count [wHighSeq, wLowSeq] (1/2)).1 (by rw [hcount]; omega)⟩

/-- C7 (the claim is right, the code raises): building the Ranked Matrix
from an empty candidate set — or from candidates that all miss the
threshold — raises `KeyError: 'Confidence'` instead of producing the empty
matrix, because `pd.DataFrame([])` has no columns when `matrix_data` is
empty.  `generate_summary` itself, on an empty (but column-bearing)
matrix, does return all-zero counts, empty distributions and an undefined
(`NaN`, here `none`) mean. -/
theorem C7_empty_matrix_raises :
    DigestiveMatrixBuilder.build_matrix ([] : List SequenceData) (1/2)
      = Except.error "KeyError: \x27Confidence\x27" ∧
    DigestiveMatrixBuilder.build_matrix [wLowSeq] (1/2)
      = Except.error "KeyError: \x27Confidence\x27" ∧
    DigestiveMatrixBuilder.generate_summary [] =
      { total_enzymes := 0, unique_enzyme_types := 0, enzyme_distribution := [],
        organism_distribution := [], tissue_distribution := [],
        stage_distribution := [], gh_family_distribution := [],
        avg_confidence := none, high_confidence_count := 0,
        gut_expressed_count := 0, larval_stage_count := 0 } := by
  refine ⟨rfl, ?_, rfl⟩
  unfold DigestiveMatrixBuilder.build_matrix
  have hp : (decide ((1:ℚ)/2 ≤ wLowSeq.confidence.getD 0)) = false := by
    rw [decide_eq_false_iff_not]
    show ¬ ((1:ℚ)/2 ≤ (2:ℚ)/5)
    norm_num
  simp only [List.filter_cons, List.filter_nil]
  rw [hp]
  simp

/-- C8 counterexample: an unsupported ranking criteria does not signal an
error — both ranking entry points silently return their input unchanged. -/
theorem C8_counterexample :
    EnzymeAnnotator.rank_sequences [wLowSeq] "alphabetical" = [wLowSeq] ∧
    DigestiveMatrixBuilder.rank_by_criteria
      [DigestiveMatrixBuilder.toRow wLowSeq] "alphabetical"
      = [DigestiveMatrixBuilder.toRow wLowSeq] :=
  ⟨rfl, rfl⟩

/-- C8 amended: export with an unknown format raises
`ValueError("Unsupported format: ...")`, but ranking with an unknown
criteria does not signal an error: both `rank_by_criteria` and
`rank_sequences` silently return the input unchanged. -/
theorem C8_amended (matrix_df : List Row) (sequences : List SequenceData)
    (fmt criteria : String)
    (hf : fmt ∉ (["csv", "json", "excel"] : List String))
    (hc : criteria ∉ (["overall", "confidence", "expression", "blast"] : List String))
    (hc2 : criteria ∉ (["confidence", "length", "enzyme_score"] : List String)) :
    DigestiveMatrixBuilder.export_matrix matrix_df fmt
      = Except.error ("Unsupported format: " ++ fmt) ∧
    DigestiveMatrixBuilder.rank_by_criteria matrix_df criteria = matrix_df ∧
    EnzymeAnnotator.rank_sequences sequences criteria = sequences := by
  have hf1 : fmt ≠ "csv" := fun h => hf (by simp [h])
  have hf2 : fmt ≠ "json" := fun h => hf (by simp [h])
  have hf3 : fmt ≠ "excel" := fun h => hf (by simp [h])
  have hc1 : criteria ≠ "overall" := fun h => hc (by simp [h])
  have hc2' : criteria ≠ "confidence" := fun h => hc (by simp [h])
  have hc3 : criteria ≠ "expression" := fun h => hc (by simp [h])
  have hc4 : criteria ≠ "blast" := fun h => hc (by simp [h])
  have hc5 : criteria ≠ "length" := fun h => hc2 (by simp [h])
  have hc6 : criteria ≠ "enzyme_score" := fun h => hc2 (by simp [h])
  refine ⟨?_, ?_, ?_⟩
  · unfold DigestiveMatrixBuilder.export_matrix
    rw [if_neg hf1, if_neg hf2, if_neg hf3]
  · unfold DigestiveMatrixBuilder.rank_by_criteria
    rw [if_neg hc1, if_neg hc2', if_neg hc3, if_neg hc4]
  · unfold EnzymeAnnotator.rank_sequences
    rw [if_neg hc2', if_neg hc5, if_neg hc6]

/-- C8 witness: the amended statement at the unknown format "xml" and the
unknown criteria "alphabetical". -/
theorem C8_amended_witness :
    ("xml" ∉ (["csv", "json", "excel"] : List String)) ∧
    ("alphabetical" ∉ (["overall", "confidence", "expression", "blast"] : List String)) ∧
    ("alphabetical" ∉ (["confidence", "length", "enzyme_score"] : List String)) ∧
    (DigestiveMatrixBuilder.export_matrix [] "xml"
        = Except.error ("Unsupported format: " ++ "xml") ∧
     DigestiveMatrixBuilder.rank_by_criteria [] "alphabetical" = [] ∧
     EnzymeAnnotator.rank_sequences [] "alphabetical" = []) :=
  ⟨by decide, by decide, by decide,
    C8_amended [] [] "xml" "alphabetical" (by decide) (by decide) (by decide)⟩

/-! ### Case-insensitivity of the family-code extractor (for C9) -/

theorem charEq_of_toNat_eq {a b : Char} (h : a.toNat = b.toNat) : a = b := by
  rw [← Char.ofNat_toNat a, ← Char.ofNat_toNat b, h]

theorem isDigitA_congr {a b : Char} (h : foldChar a = foldChar b) :
    isDigitA a = isDigitA b := by
  unfold foldChar at h
  unfold isDigitA
  rw [decide_eq_decide]
  split_ifs at h with h1 h2 h3 <;> omega

theorem isWordA_congr {a b : Char} (h : foldChar a = foldChar b) :
    isWordA a = isWordA b := by
  unfold foldChar at h
  unfold isWordA
  rw [decide_eq_decide]
  split_ifs at h with h1 h2 h3 <;> omega

theorem upperChar_congr {a b : Char} (h : foldChar a = foldChar b) :
    upperChar a = upperChar b := by
  unfold foldChar at h
  by_cases ha : 65 ≤ a.toNat ∧ a.toNat ≤ 90
  · by_cases hb : 65 ≤ b.toNat ∧ b.toNat ≤ 90
    · rw [if_pos ha, if_pos hb] at h
      rw [charEq_of_toNat_eq (show a.toNat = b.toNat by omega)]
    · rw [if_pos ha, if_neg hb] at h
      unfold upperChar
      rw [if_neg (by omega), if_pos (by omega)]
      have hsub : b.toNat - 32 = a.toNat := by omega
      rw [hsub, Char.ofNat_toNat]
  · by_cases hb : 65 ≤ b.toNat ∧ b.toNat ≤ 90
    · rw [if_neg ha, if_pos hb] at h
      unfold upperChar
      rw [if_pos (by omega), if_neg (by omega)]
      have hsub : a.toNat - 32 = b.toNat := by omega
      rw [hsub, Char.ofNat_toNat]
    · rw [if_neg ha, if_neg hb] at h
      rw [charEq_of_toNat_eq h]

theorem boundaryBefore_congr {p₁ p₂ : Option Char}
    (hp : p₁.map foldChar = p₂.map foldChar) :
    boundaryBefore p₁ = boundaryBefore p₂ := by
  cases p₁ with
  | none =>
    cases p₂ with
    | none => rfl
    | some b => simp at hp
  | some a =>
    cases p₂ with
    | none => simp at hp
    | some b =>
      simp only [Option.map_some', Option.some.injEq] at hp
      show (!isWordA a) = !isWordA b
      rw [isWordA_congr hp]

theorem afterOk_congr {r₁ r₂ : List Char} (h : r₁.map foldChar = r₂.map foldChar) :
    afterOk r₁ = afterOk r₂ := by
  cases r₁ with
  | nil =>
    cases r₂ with
    | nil => rfl
    | cons b t => simp at h
  | cons a t =>
    cases r₂ with
    | nil => simp at h
    | cons b t₂ =>
      simp only [List.map_cons, List.cons.injEq] at h
      show (!isWordA a) = !isWordA b
      rw [isWordA_congr h.1]

theorem prefOk_congr {a b a' b' : Char} (h1 : foldChar a = foldChar a')
    (h2 : foldChar b = foldChar b') : prefOk a b = prefOk a' b' := by
  unfold prefOk
  rw [h1, h2]

theorem mapUpper_congr : ∀ (l₁ l₂ : List Char), l₁.map foldChar = l₂.map foldChar →
    l₁.map upperChar = l₂.map upperChar := by
  intro l₁
  induction l₁ with
  | nil =>
    intro l₂ h
    cases l₂ with
    | nil => rfl
    | cons b t => simp at h
  | cons a t ih =>
    intro l₂ h
    cases l₂ with
    | nil => simp at h
    | cons b t₂ =>
      simp only [List.map_cons, List.cons.injEq] at h ⊢
      exact ⟨upperChar_congr h.1, ih t₂ h.2⟩

theorem takeDrop_digit_congr : ∀ (l₁ l₂ : List Char),
    l₁.map foldChar = l₂.map foldChar →
    (l₁.takeWhile isDigitA).map foldChar = (l₂.takeWhile isDigitA).map foldChar ∧
    (l₁.dropWhile isDigitA).map foldChar = (l₂.dropWhile isDigitA).map foldChar ∧
    (l₁.takeWhile isDigitA).isEmpty = (l₂.takeWhile isDigitA).isEmpty := by
  intro l₁
  induction l₁ with
  | nil =>
    intro l₂ h
    cases l₂ with
    | nil => exact ⟨rfl, rfl, rfl⟩
    | cons b t => simp at h
  | cons a t ih =>
    intro l₂ h
    cases l₂ with
    | nil => simp at h
    | cons b t₂ =>
      simp only [List.map_cons, List.cons.injEq] at h
      obtain ⟨hh, ht⟩ := h
      have hd := isDigitA_congr hh
      rw [List.takeWhile_cons, List.takeWhile_cons, List.dropWhile_cons, List.dropWhile_cons]
      cases hda : isDigitA a with
      | false =>
        have hdb : isDigitA b = false := by rw [← hd, hda]
        simp only [hda, hdb, Bool.false_eq_true, if_false, ite_false]
        refine ⟨?_, ?_, ?_⟩ <;> simp_all
      | true =>
        have hdb : isDigitA b = true := by rw [← hd, hda]
        simp only [hda, hdb, if_true, ite_true]
        obtain ⟨ih1, ih2, -⟩ := ih t₂ ht
        refine ⟨?_, ?_, ?_⟩ <;> simp_all

theorem ghMatchAt_cons2 (prev : Option Char) (a b : Char) (rest : List Char) :
    ghMatchAt prev (a :: b :: rest)
      = if (boundaryBefore prev && prefOk a b) = true then
          (if (!(rest.takeWhile isDigitA).isEmpty
              && afterOk (rest.dropWhile isDigitA)) = true
           then some (a :: b :: rest.takeWhile isDigitA) else none)
        else none := rfl

theorem ghMatchAt_congr {p₁ p₂ : Option Char} {s₁ s₂ : List Char}
    (hp : p₁.map foldChar = p₂.map foldChar)
    (h : s₁.map foldChar = s₂.map foldChar) :
    (ghMatchAt p₁ s₁).map (fun m => m.map upperChar)
      = (ghMatchAt p₂ s₂).map (fun m => m.map upperChar) := by
  cases s₁ with
  | nil =>
    cases s₂ with
    | nil => rfl
    | cons b t => simp at h
  | cons a t =>
    cases s₂ with
    | nil => simp at h
    | cons b t₂ =>
      simp only [List.map_cons, List.cons.injEq] at h
      obtain ⟨hab, ht⟩ := h
      cases t with
      | nil =>
        cases t₂ with
        | nil => rfl
        | cons c u => simp at ht
      | cons a2 t' =>
        cases t₂ with
        | nil => simp at ht
        | cons b2 t₂' =>
          simp only [List.map_cons, List.cons.injEq] at ht
          obtain ⟨hab2, ht'⟩ := ht
          rw [ghMatchAt_cons2, ghMatchAt_cons2]
          rw [boundaryBefore_congr hp, prefOk_congr hab hab2]
          cases hcond : (boundaryBefore p₂ && prefOk b b2) with
          | false => rfl
          | true =>
            simp only [hcond, if_true, ite_true]
            obtain ⟨htk, hdr, hemp⟩ := takeDrop_digit_congr t' t₂' ht'
            rw [hemp, afterOk_congr hdr]
            cases hc2 : (!(t₂'.takeWhile isDigitA).isEmpty
                && afterOk (t₂'.dropWhile isDigitA)) with
            | false => rfl
            | true =>
              simp only [hc2, if_true, ite_true, Option.map_some', Option.some.injEq]
              simp only [List.map_cons, List.cons.injEq]
              exact ⟨upperChar_congr hab, upperChar_congr hab2, mapUpper_congr _ _ htk⟩

theorem ghScan_congr : ∀ (s₁ s₂ : List Char) (p₁ p₂ : Option Char),
    s₁.map foldChar = s₂.map foldChar → p₁.map foldChar = p₂.map foldChar →
    (ghScan p₁ s₁).map (fun m => m.map upperChar)
      = (ghScan p₂ s₂).map (fun m => m.map upperChar) := by
  intro s₁
  induction s₁ with
  | nil =>
    intro s₂ p₁ p₂ h hp
    cases s₂ with
    | nil => rfl
    | cons b t => simp at h
  | cons a t ih =>
    intro s₂ p₁ p₂ h hp
    cases s₂ with
    | nil => simp at h
    | cons b t₂ =>
      have hm := ghMatchAt_congr hp h
      have hh : foldChar a = foldChar b ∧ t.map foldChar = t₂.map foldChar := by
        simpa using h
      unfold ghScan
      rw [List.map_append, List.map_append]
      congr 1
      · cases hma : ghMatchAt p₁ (a :: t) with
        | none =>
          cases hmb : ghMatchAt p₂ (b :: t₂) with
          | none => rfl
          | some m =>
            rw [hma, hmb] at hm
            simp at hm
        | some m =>
          cases hmb : ghMatchAt p₂ (b :: t₂) with
          | none =>
            rw [hma, hmb] at hm
            simp at hm
          | some m₂ =>
            rw [hma, hmb] at hm
            simp only [Option.map_some', Option.some.injEq] at hm
            simp [hm]
      · exact ih t₂ (some a) (some b) hh.2 (by simp [hh.1])

theorem ghFamiliesOf_congr (c₁ c₂ : List Char)
    (h : c₁.map foldChar = c₂.map foldChar) :
    ghFamiliesOf c₁ = ghFamiliesOf c₂ := by
  have key : ∀ c : List Char,
      (ghScan none c).map (fun m => String.mk (m.map upperChar))
        = ((ghScan none c).map (fun m => m.map upperChar)).map String.mk := by
    intro c
    rw [List.map_map]
    rfl
  unfold ghFamiliesOf
  rw [key, key, ghScan_congr c₁ c₂ none none h rfl]

/-- C9: family-code extraction is case-insensitive in matching and
case-normalising in output: two corpora that are equal up to letter case
(equal images under ASCII case folding) yield identical deduplicated,
uppercased family sets; in particular a corpus containing "gh5" and the
same corpus containing "GH5" both yield {"GH5"}. -/
theorem C9_family_case_normalization (c₁ c₂ : List Char)
    (h : c₁.map foldChar = c₂.map foldChar) :
    ghFamiliesOf c₁ = ghFamiliesOf c₂ ∧
    ghFamiliesOf "enzyme gh5 candidate".data = ["GH5"] ∧
    ghFamiliesOf "enzyme GH5 candidate".data = ["GH5"] :=
  ⟨ghFamiliesOf_congr c₁ c₂ h, by decide, by decide⟩

/-- C9 witness: the corpora "cellulase gh5" and "cellulase GH5" are equal
up to case, and their extracted family sets coincide. -/
theorem C9_family_case_normalization_witness :
    ("cellulase gh5".data.map foldChar = "cellulase GH5".data.map foldChar) ∧
    (ghFamiliesOf "cellulase gh5".data = ghFamiliesOf "cellulase GH5".data ∧
     ghFamiliesOf "enzyme gh5 candidate".data = ["GH5"] ∧
     ghFamiliesOf "enzyme GH5 candidate".data = ["GH5"]) :=
  ⟨by decide, C9_family_case_normalization _ _ (by decide)⟩
